import Mathlib

/-!
Verification of the drg command-line client (sources: src/main.rs,
src/arguments.rs, src/devices.rs) against its natural-language
specification.  The Rust program is shallowly embedded: each relevant
Rust function becomes a Lean definition, network and editor interaction
become explicit oracles, process exit becomes an `Outcome` value, and an
invocation produces a trace of observable events (token check, HTTP
requests, editor spawns).
-/

namespace Drg

/-!  JSON values, mirroring `serde_json::Value`.  `serde_json`'s default
`Map` is a `BTreeMap`, so objects hold their fields sorted by key; the
`serdeObj` smart constructor below reproduces the insertion behaviour of
the `json!` macro.  Numbers are modelled as integers, which covers every
number this development manipulates.  -/

inductive Json where
  | null : Json
  | bool (b : Bool) : Json
  | num (n : Int) : Json
  | str (s : String) : Json
  | arr (elems : List Json) : Json
  | obj (fields : List (String × Json)) : Json
deriving Repr

/-- Insert a field into a key-sorted field list, replacing an existing
binding of the same key — the behaviour of `BTreeMap::insert`. -/
def insertField (k : String) (v : Json) : List (String × Json) → List (String × Json)
  | [] => [(k, v)]
  | (k', v') :: rest =>
    if k == k' then (k, v) :: rest
    else if k < k' then (k, v) :: (k', v') :: rest
    else (k', v') :: insertField k v rest

/-- Build a `serde_json` object from fields listed in source order: the
`json!` macro inserts them one by one into a `BTreeMap`. -/
def serdeObj (fields : List (String × Json)) : Json :=
  Json.obj (fields.foldl (fun acc kv => insertField kv.1 kv.2 acc) [])

/-- Escape one character the way `serde_json` renders it inside a JSON
string literal. -/
def escapeChar (c : Char) : String :=
  if c == '"' then "\\\""
  else if c == '\\' then "\\\\"
  else if c == '\n' then "\\n"
  else if c == '\t' then "\\t"
  else if c == '\r' then "\\r"
  else String.singleton c

def escapeString (s : String) : String :=
  String.join (s.toList.map escapeChar)

mutual

/-- Compact rendering of a JSON value, as `serde_json::Value::to_string`
produces it (no whitespace; object fields in stored order). -/
def jsonToString : Json → String
  | Json.null => "null"
  | Json.bool true => "true"
  | Json.bool false => "false"
  | Json.num n => toString n
  | Json.str s => "\"" ++ escapeString s ++ "\""
  | Json.arr xs => "[" ++ jsonListToString xs ++ "]"
  | Json.obj fs => "\x7b" ++ jsonFieldsToString fs ++ "\x7d"

def jsonListToString : List Json → String
  | [] => ""
  | [x] => jsonToString x
  | x :: xs => jsonToString x ++ "," ++ jsonListToString xs

def jsonFieldsToString : List (String × Json) → String
  | [] => ""
  | [(k, v)] => "\"" ++ escapeString k ++ "\":" ++ jsonToString v
  | (k, v) :: fs => "\"" ++ escapeString k ++ "\":" ++ jsonToString v ++ "," ++ jsonFieldsToString fs

end

mutual

/-- Recursively sort every object of a JSON value by key (last binding of
a duplicated key winning).  Two values describe the same JSON document
exactly when their sorted forms coincide. -/
def sortJson : Json → Json
  | Json.null => Json.null
  | Json.bool b => Json.bool b
  | Json.num n => Json.num n
  | Json.str s => Json.str s
  | Json.arr xs => Json.arr (sortJsonList xs)
  | Json.obj fs => Json.obj (sortJsonFields fs)

def sortJsonList : List Json → List Json
  | [] => []
  | x :: xs => sortJson x :: sortJsonList xs

def sortJsonFields : List (String × Json) → List (String × Json)
  | [] => []
  | (k, v) :: fs => insertField k (sortJson v) (sortJsonFields fs)

end

/-!  A JSON parser modelling `serde_json::from_str` on the integer
fragment (the only fragment this development feeds it).  Whitespace is
skipped between tokens; object fields are inserted into a key-sorted
map exactly as `serde_json`'s `BTreeMap` does. -/

def isWsChar (c : Char) : Bool :=
  c == ' ' || c == '\n' || c == '\t' || c == '\r'

def skipWs : List Char → List Char
  | [] => []
  | c :: cs => if isWsChar c then skipWs cs else c :: cs

/-- Parse the remainder of a JSON string literal (the opening quote
already consumed), handling the standard escapes. -/
def parseStringRest (fuel : Nat) (cs : List Char) (acc : String) : Option (String × List Char) :=
  match fuel, cs with
  | 0, _ => none
  | _, [] => none
  | fuel + 1, c :: rest =>
    if c == '"' then some (acc, rest)
    else if c == '\\' then
      match rest with
      | [] => none
      | e :: rest' =>
        if e == '"' then parseStringRest fuel rest' (acc.push '"')
        else if e == '\\' then parseStringRest fuel rest' (acc.push '\\')
        else if e == '/' then parseStringRest fuel rest' (acc.push '/')
        else if e == 'n' then parseStringRest fuel rest' (acc.push '\n')
        else if e == 't' then parseStringRest fuel rest' (acc.push '\t')
        else if e == 'r' then parseStringRest fuel rest' (acc.push '\r')
        else none
    else parseStringRest fuel rest (acc.push c)

def parseDigits (fuel : Nat) (cs : List Char) (acc : Nat) : Nat × List Char :=
  match fuel, cs with
  | 0, _ => (acc, cs)
  | _, [] => (acc, [])
  | fuel + 1, c :: rest =>
    if c.isDigit then parseDigits fuel rest (acc * 10 + (c.toNat - '0'.toNat))
    else (acc, cs)

mutual

def parseValue (fuel : Nat) (cs : List Char) : Option (Json × List Char) :=
  match fuel with
  | 0 => none
  | fuel + 1 =>
    match skipWs cs with
    | [] => none
    | c :: rest =>
      if c == 'n' then
        match rest with
        | 'u' :: 'l' :: 'l' :: rest' => some (Json.null, rest')
        | _ => none
      else if c == 't' then
        match rest with
        | 'r' :: 'u' :: 'e' :: rest' => some (Json.bool true, rest')
        | _ => none
      else if c == 'f' then
        match rest with
        | 'a' :: 'l' :: 's' :: 'e' :: rest' => some (Json.bool false, rest')
        | _ => none
      else if c == '"' then
        match parseStringRest fuel rest "" with
        | some (s, rest') => some (Json.str s, rest')
        | none => none
      else if c == '-' then
        match rest with
        | d :: _ =>
          if d.isDigit then
            match parseDigits fuel rest 0 with
            | (n, rest') => some (Json.num (-(n : Int)), rest')
          else none
        | [] => none
      else if c.isDigit then
        match parseDigits fuel (c :: rest) 0 with
        | (n, rest') => some (Json.num (n : Int), rest')
      else if c == '[' then
        match skipWs rest with
        | ']' :: rest' => some (Json.arr [], rest')
        | _ => parseArrayElems fuel rest []
      else if c == '\x7b' then
        match skipWs rest with
        | '\x7d' :: rest' => some (Json.obj [], rest')
        | _ => parseObjectFields fuel rest []
      else none

def parseArrayElems (fuel : Nat) (cs : List Char) (acc : List Json) : Option (Json × List Char) :=
  match fuel with
  | 0 => none
  | fuel + 1 =>
    match parseValue fuel cs with
    | none => none
    | some (v, rest) =>
      match skipWs rest with
      | ',' :: rest' => parseArrayElems fuel rest' (acc ++ [v])
      | ']' :: rest' => some (Json.arr (acc ++ [v]), rest')
      | _ => none

def parseObjectFields (fuel : Nat) (cs : List Char) (acc : List (String × Json)) : Option (Json × List Char) :=
  match fuel with
  | 0 => none
  | fuel + 1 =>
    match skipWs cs with
    | '"' :: rest =>
      match parseStringRest fuel rest "" with
      | none => none
      | some (k, rest') =>
        match skipWs rest' with
        | ':' :: rest'' =>
          match parseValue fuel rest'' with
          | none => none
          | some (v, rest''') =>
            match skipWs rest''' with
            | ',' :: more => parseObjectFields fuel more (insertField k v acc)
            | '\x7d' :: more => some (Json.obj (insertField k v acc), more)
            | _ => none
        | _ => none
    | _ => none

end

/-- Parse a whole string as one JSON document, as `serde_json::from_str`
does: one value, then only trailing whitespace. -/
def jsonParse (s : String) : Option Json :=
  match parseValue (s.length + 1) s.toList with
  | none => none
  | some (v, rest) =>
    match skipWs rest with
    | [] => some v
    | _ => none

/-!  ## Data model of the client

`Config` models the fields of `config::Config` that the core reads
(`config.rs` is not in src/; the fields are those dereferenced by
`main.rs` and `devices.rs`): the registry base URL as its serialized
`reqwest::Url` string, the access token secret reached through
`config.token.access_token().secret()`, and the optional default app. -/

structure Config where
  registry_url : String
  access_token : String
  default_app : Option String
deriving Repr, DecidableEq

inductive Method where
  | GET : Method
  | POST : Method
  | PUT : Method
  | DELETE : Method
deriving Repr, DecidableEq

/-- One HTTP request as the client builds it with `reqwest`: method, URL,
the bearer token attached by `.bearer_auth(..)`, the optional
`Content-Type` header and the optional body string. -/
structure Request where
  method : Method
  url : String
  bearer : String
  contentType : Option String
  body : Option String
deriving Repr, DecidableEq

/-- What a blocking `send()` can produce: a transport failure, or a
response with a status code and a body that may or may not be readable
as text (`Response::text()` is fallible). -/
inductive NetResult where
  | transportErr (msg : String) : NetResult
  | resp (status : Nat) (text : Option String) : NetResult
deriving Repr, DecidableEq

/-- The network oracle: the response the outside world gives each request. -/
def Net : Type := Request → NetResult

/-- Observable events of one invocation, in order: the token
validity check, each HTTP request sent, each spawn of the external
editor with the text presented to it. -/
inductive Event where
  | checkedToken : Event
  | sent (req : Request) : Event
  | editorSpawned (input : String) : Event
deriving Repr, DecidableEq

/-- Result of one handler function: normal return `Ok(())`, an
`anyhow::Error` return, a direct `process::exit(code)`, or a Rust panic
(from `.unwrap()` on `None`/`Err`). -/
inductive FnResult where
  | ok : FnResult
  | err (msg : String) : FnResult
  | exited (code : Nat) : FnResult
  | panicked : FnResult
deriving Repr, DecidableEq

/-- How the whole process terminates: `main` returned `Ok(())` (process
exit 0), `main` returned `Err` (the Rust runtime exits with code 1), an
explicit `process::exit(code)`, or a panic (runtime exit code 101). -/
inductive Outcome where
  | finished : Outcome
  | errored (msg : String) : Outcome
  | exited (code : Nat) : Outcome
  | panicked : Outcome
deriving Repr, DecidableEq

def processExitCode : Outcome → Nat
  | Outcome.finished => 0
  | Outcome.errored _ => 1
  | Outcome.exited n => n
  | Outcome.panicked => 101

/-!  ## util.rs collaborators (not in src/) -/

/-- Modelled from the spec: `util::print_result` (util.rs is not in
src/).  §4.1: on success the confirmation is printed and the handler
returns; "on failure the error is logged and the process exits with
code 3 for CRUD-level failures (server rejected the operation)"; §4.3:
"2xx → success; otherwise surfaces the server's status/message". -/
def print_result (status : Nat) : FnResult :=
  if 200 ≤ status ∧ status < 300 then FnResult.ok else FnResult.exited 3

/-- Modelled from the spec: `util::json_parse` (util.rs is not in src/),
which turns the optional `--data` inline JSON flag into a
`serde_json::Value`, failing on malformed JSON (§7 `ValidationError`:
"malformed payload", caught before any network call).  An absent flag
yields an empty object payload. -/
def json_parse : Option String → Except String Json
  | none => Except.ok (Json.obj [])
  | some s =>
    match jsonParse s with
    | some j => Except.ok j
    | none => Except.error "Invalid JSON in data args"

/-- Modelled from the spec: `util::editor` (util.rs is not in src/).
§4.4: present the given text to the external editor, block, capture the
resulting text exactly as written back (`capture` is the oracle for what
the user writes), then "parse the captured text as JSON; if malformed,
this must fail as a recoverable `InvalidPayload` error reported to the
user (not a process crash)"; on success return the parsed
`serde_json::Value`. -/
def editorFlow (capture : String → String) (input : String) : Except String Json :=
  match jsonParse (capture input) with
  | some j => Except.ok j
  | none => Except.error "InvalidPayload"

/-!  ## devices.rs -/

/-- `devices::craft_url`: `format!("\x7b\x7dapi/v1/apps/\x7b\x7d/devices/\x7b\x7d", base, app_id, device_id)` —
note the base URL's serialized form and the path are concatenated with
no separator of their own. -/
def craft_url (base app_id device_id : String) : String :=
  base ++ "api/v1/apps/" ++ app_id ++ "/devices/" ++ device_id

/-- The GET request built by `devices::get`. -/
def devicesGetRequest (config : Config) (app device_id : String) : Request :=
  { method := Method.GET
    url := craft_url config.registry_url app device_id
    bearer := config.access_token
    contentType := none
    body := none }

/-- `devices::get`: send the GET, wrapping a transport failure with the
context "Can\x27t get device."; a response is returned untouched as
(status, optional text). -/
def devicesGet (net : Net) (config : Config) (app device_id : String) :
    List Event × Except String (Nat × Option String) :=
  let req := devicesGetRequest config app device_id
  match net req with
  | NetResult.transportErr _ => ([Event.sent req], Except.error "Can\x27t get device.")
  | NetResult.resp st txt => ([Event.sent req], Except.ok (st, txt))

/-- `devices::read`: `get` then `print_result`. -/
def devicesRead (net : Net) (config : Config) (app device_id : String) :
    List Event × FnResult :=
  match devicesGet net config app device_id with
  | (evs, Except.error e) => (evs, FnResult.err e)
  | (evs, Except.ok (st, _)) => (evs, print_result st)

/-- The DELETE request built by `devices::delete`. -/
def devicesDeleteRequest (config : Config) (app device_id : String) : Request :=
  { method := Method.DELETE
    url := craft_url config.registry_url app device_id
    bearer := config.access_token
    contentType := none
    body := none }

/-- `devices::delete`: DELETE the item URL; transport failure becomes the
context error "Can\x27t delete device.", a response goes to `print_result`. -/
def devicesDelete (net : Net) (config : Config) (app device_id : String) :
    List Event × FnResult :=
  let req := devicesDeleteRequest config app device_id
  match net req with
  | NetResult.transportErr _ => ([Event.sent req], FnResult.err "Can\x27t delete device.")
  | NetResult.resp st _ => ([Event.sent req], print_result st)

/-- The body `devices::create` builds with the `json!` macro (fields
inserted into `serde_json`'s `BTreeMap` in source order). -/
def createBody (device_id app_id : String) (data : Json) : Json :=
  serdeObj
    [("metadata", serdeObj [("name", Json.str device_id), ("application", Json.str app_id)]),
     ("spec", data)]

/-- The POST request built by `devices::create`: collection URL
`format!("\x7b\x7dapi/v1/apps/\x7b\x7d/devices", registry_url, app_id)`, JSON content
type, bearer token, and `body.to_string()` as body. -/
def devicesCreateRequest (config : Config) (device_id : String) (data : Json)
    (app_id : String) : Request :=
  { method := Method.POST
    url := config.registry_url ++ "api/v1/apps/" ++ app_id ++ "/devices"
    bearer := config.access_token
    contentType := some "application/json"
    body := some (jsonToString (createBody device_id app_id data)) }

/-- `devices::create`: send the POST; transport failure becomes the
context error "Can\x27t create device.", a response goes to `print_result`. -/
def devicesCreate (net : Net) (config : Config) (device_id : String) (data : Json)
    (app_id : String) : List Event × FnResult :=
  let req := devicesCreateRequest config device_id data app_id
  match net req with
  | NetResult.transportErr _ => ([Event.sent req], FnResult.err "Can\x27t create device.")
  | NetResult.resp st _ => ([Event.sent req], print_result st)

/-- The PUT request built by `devices::put`: item URL, JSON content type,
bearer token, `data.to_string()` as body. -/
def devicesPutRequest (config : Config) (app device_id : String) (data : Json) : Request :=
  { method := Method.PUT
    url := craft_url config.registry_url app device_id
    bearer := config.access_token
    contentType := some "application/json"
    body := some (jsonToString data) }

/-- `devices::put`: send the PUT, wrapping a transport failure with the
"Error while updating device data" context. -/
def devicesPut (net : Net) (config : Config) (app device_id : String) (data : Json) :
    List Event × Except String (Nat × Option String) :=
  let req := devicesPutRequest config app device_id data
  match net req with
  | NetResult.transportErr _ =>
    ([Event.sent req], Except.error ("Error while updating device data for " ++ device_id))
  | NetResult.resp st txt => ([Event.sent req], Except.ok (st, txt))

/-- `devices::edit`: read the device; on a 200 response take the body
text (falling back to "\x7b\x7d" when the text cannot be read), run the
external editor (`?` propagates its error), then `put(..).unwrap()`
(a transport failure of the PUT panics) and `print_result` on the PUT
response; on any non-200 status or a failed read, log and
`process::exit(2)`. -/
def devicesEdit (net : Net) (capture : String → String) (config : Config)
    (app device_id : String) : List Event × FnResult :=
  match devicesGet net config app device_id with
  | (evs, Except.error _) => (evs, FnResult.exited 2)
  | (evs, Except.ok (st, txt)) =>
    if st = 200 then
      let body := txt.getD "\x7b\x7d"
      match editorFlow capture body with
      | Except.error e => (evs ++ [Event.editorSpawned body], FnResult.err e)
      | Except.ok insert =>
        match devicesPut net config app device_id insert with
        | (evs2, Except.error _) =>
          (evs ++ [Event.editorSpawned body] ++ evs2, FnResult.panicked)
        | (evs2, Except.ok (pst, _)) =>
          (evs ++ [Event.editorSpawned body] ++ evs2, print_result pst)
    else (evs, FnResult.exited 2)

/-!  ## apps.rs collaborators (not in src/) -/

/-- Modelled from the spec: app item path (apps.rs is not in src/).
§4.3/§6: "app paths are `\x7bbase\x7d/api/v1/apps/\x7bid\x7d`". -/
def appUrl (base app_id : String) : String :=
  base ++ "/api/v1/apps/" ++ app_id

/-- Modelled from the spec: the requests of the app operations
(apps.rs is not in src/), per §4.3 and the §6 wire-protocol table. -/
def appsCreateRequest (config : Config) (app_id : String) (data : Json) : Request :=
  { method := Method.POST
    url := config.registry_url ++ "/api/v1/apps"
    bearer := config.access_token
    contentType := some "application/json"
    body := some (jsonToString (serdeObj [("metadata", serdeObj [("name", Json.str app_id)]), ("spec", data)])) }

def appsGetRequest (config : Config) (app_id : String) : Request :=
  { method := Method.GET
    url := appUrl config.registry_url app_id
    bearer := config.access_token
    contentType := none
    body := none }

def appsDeleteRequest (config : Config) (app_id : String) : Request :=
  { method := Method.DELETE
    url := appUrl config.registry_url app_id
    bearer := config.access_token
    contentType := none
    body := none }

def appsPutRequest (config : Config) (app_id : String) (data : Json) : Request :=
  { method := Method.PUT
    url := appUrl config.registry_url app_id
    bearer := config.access_token
    contentType := some "application/json"
    body := some (jsonToString data) }

/-- Modelled from the spec: `apps::create` (apps.rs is not in src/).
§4.3: POST to the kind's collection path with body
`\x7bmetadata:\x7bname: id\x7d, spec: payload\x7d` (no parent app for an app),
then report as every CRUD operation does. -/
def appsCreate (net : Net) (config : Config) (app_id : String) (data : Json) :
    List Event × FnResult :=
  let req := appsCreateRequest config app_id data
  match net req with
  | NetResult.transportErr _ => ([Event.sent req], FnResult.err "Can\x27t create app.")
  | NetResult.resp st _ => ([Event.sent req], print_result st)

/-- Modelled from the spec: `apps::read` (apps.rs is not in src/).
§4.3: GET the item path, report status. -/
def appsRead (net : Net) (config : Config) (app_id : String) :
    List Event × FnResult :=
  let req := appsGetRequest config app_id
  match net req with
  | NetResult.transportErr _ => ([Event.sent req], FnResult.err "Can\x27t get app.")
  | NetResult.resp st _ => ([Event.sent req], print_result st)

/-- Modelled from the spec: `apps::delete` (apps.rs is not in src/).
§4.3: DELETE the item path, report status. -/
def appsDelete (net : Net) (config : Config) (app_id : String) :
    List Event × FnResult :=
  let req := appsDeleteRequest config app_id
  match net req with
  | NetResult.transportErr _ => ([Event.sent req], FnResult.err "Can\x27t delete app.")
  | NetResult.resp st _ => ([Event.sent req], print_result st)

/-- Modelled from the spec: `apps::edit` (apps.rs is not in src/).
§4.4: fetch the item; status ≠ 200 or failed fetch → exit 2; else run
the external editor on the fetched body and PUT the parsed result,
reporting like every CRUD operation. -/
def appsEdit (net : Net) (capture : String → String) (config : Config)
    (app_id : String) : List Event × FnResult :=
  match net (appsGetRequest config app_id) with
  | NetResult.transportErr _ => ([Event.sent (appsGetRequest config app_id)], FnResult.exited 2)
  | NetResult.resp st txt =>
    if st = 200 then
      let body := txt.getD "\x7b\x7d"
      match editorFlow capture body with
      | Except.error e =>
        ([Event.sent (appsGetRequest config app_id), Event.editorSpawned body], FnResult.err e)
      | Except.ok insert =>
        match net (appsPutRequest config app_id insert) with
        | NetResult.transportErr _ =>
          ([Event.sent (appsGetRequest config app_id), Event.editorSpawned body,
            Event.sent (appsPutRequest config app_id insert)], FnResult.panicked)
        | NetResult.resp pst _ =>
          ([Event.sent (appsGetRequest config app_id), Event.editorSpawned body,
            Event.sent (appsPutRequest config app_id insert)], print_result pst)
    else ([Event.sent (appsGetRequest config app_id)], FnResult.exited 2)

/-!  ## arguments.rs -/

/-- `arguments::Verbs` (strum `EnumString`). -/
inductive Verbs where
  | create : Verbs
  | delete : Verbs
  | edit : Verbs
  | get : Verbs
deriving Repr, DecidableEq

/-- `Verbs::from_str`: strum matches the exact variant name, anything
else is `ParseError::VariantNotFound` ("Matching variant not found"). -/
def Verbs.fromStr (s : String) : Except String Verbs :=
  if s == "create" then Except.ok Verbs.create
  else if s == "delete" then Except.ok Verbs.delete
  else if s == "edit" then Except.ok Verbs.edit
  else if s == "get" then Except.ok Verbs.get
  else Except.error "Matching variant not found"

/-- `arguments::Resources` (strum `EnumString`). -/
inductive Resources where
  | device : Resources
  | app : Resources
deriving Repr, DecidableEq

def Resources.fromStr (s : String) : Except String Resources :=
  if s == "device" then Except.ok Resources.device
  else if s == "app" then Except.ok Resources.app
  else Except.error "Matching variant not found"

/-- The top-level subcommand names registered by
`arguments::parse_arguments` on the clap `App` (canonical names; clap
resolves the aliases `add`, `remove`, `update` to them). -/
def registeredTopCommands : List String :=
  ["create", "delete", "get", "edit", "version", "login", "token", "send"]

/-- `arguments::get_app_id`: the explicit `--app` value if present, else
the config's `default_app`, else the missing-app error.  (Defined in
arguments.rs; `main.rs` never calls it for device operations.) -/
def get_app_id (matchesApp : Option String) (config : Config) : Except String String :=
  match matchesApp with
  | some a => Except.ok a
  | none =>
    match config.default_app with
    | some v => Except.ok v
    | none => Except.error "Missing app argument and no default app specified in config file."

/-!  ## main.rs -/

/-- The argument values clap hands to `main` for the innermost matched
subcommand: the positional `id`, and the `--app` and `--data` flags. -/
structure SubArgs where
  id : Option String
  app : Option String
  data : Option String
deriving Repr, DecidableEq

/-- A parsed invocation as `main` sees it: the top-level subcommand's
canonical name, the nested resource subcommand's name, and the
argument values.  Clap's `SubcommandRequiredElseHelp` /
`ArgRequiredElseHelp` settings guarantee both levels are present. -/
structure Matches where
  cmdName : String
  resName : String
  args : SubArgs
deriving Repr, DecidableEq

/-- Lift a CRUD handler's result the way `main` treats it:
`.map_err(|e| \x7b log::error!(..); exit(3) \x7d).unwrap()` turns an error
return into `process::exit(3)`; a normal return lets `main` reach its
final `Ok(())`. -/
def liftCrud : List Event × FnResult → List Event × Outcome
  | (evs, FnResult.ok) => (evs, Outcome.finished)
  | (evs, FnResult.err _) => (evs, Outcome.exited 3)
  | (evs, FnResult.exited n) => (evs, Outcome.exited n)
  | (evs, FnResult.panicked) => (evs, Outcome.panicked)

/-- The verb/resource dispatch of `main` (its final `match` statement).
For every device branch `main` resolves the parent app with
`command.unwrap().value_of(Resources::app).unwrap()` — an absent
`--app` flag panics; `get_app_id` is never consulted. -/
def route (m : Matches) (config : Config) (net : Net) (capture : String → String) :
    List Event × Outcome :=
  match Verbs.fromStr m.cmdName with
  | Except.error e => ([], Outcome.errored e)
  | Except.ok Verbs.create =>
    match json_parse m.args.data with
    | Except.error e => ([], Outcome.errored e)
    | Except.ok data =>
      match m.args.id with
      | none => ([], Outcome.panicked)
      | some id =>
        match Resources.fromStr m.resName with
        | Except.error e => ([], Outcome.errored e)
        | Except.ok Resources.app => liftCrud (appsCreate net config id data)
        | Except.ok Resources.device =>
          match m.args.app with
          | none => ([], Outcome.panicked)
          | some app_id => liftCrud (devicesCreate net config id data app_id)
  | Except.ok Verbs.delete =>
    match m.args.id with
    | none => ([], Outcome.panicked)
    | some id =>
      match Resources.fromStr m.resName with
      | Except.error e => ([], Outcome.errored e)
      | Except.ok Resources.app => liftCrud (appsDelete net config id)
      | Except.ok Resources.device =>
        match m.args.app with
        | none => ([], Outcome.panicked)
        | some app_id => liftCrud (devicesDelete net config app_id id)
  | Except.ok Verbs.edit =>
    match m.args.id with
    | none => ([], Outcome.panicked)
    | some id =>
      match Resources.fromStr m.resName with
      | Except.error e => ([], Outcome.errored e)
      | Except.ok Resources.app => liftCrud (appsEdit net capture config id)
      | Except.ok Resources.device =>
        match m.args.app with
        | none => ([], Outcome.panicked)
        | some app_id => liftCrud (devicesEdit net capture config app_id id)
  | Except.ok Verbs.get =>
    match m.args.id with
    | none => ([], Outcome.panicked)
    | some id =>
      match Resources.fromStr m.resName with
      | Except.error e => ([], Outcome.errored e)
      | Except.ok Resources.app => liftCrud (appsRead net config id)
      | Except.ok Resources.device =>
        match m.args.app with
        | none => ([], Outcome.panicked)
        | some app_id => liftCrud (devicesRead net config app_id id)

/-- `main`, as a function of the parsed invocation and the collaborators
it consults: the loaded config (`config::load_config` result), the
token check `openid::verify_token_validity`, the network, and the
editor capture oracle.  In `main`'s order: the `login` branch exits
before the config is loaded for CRUD use; `version` prints and exits
(printing itself modelled from the spec as out of scope);
`config = rst_config.context(..)?` and
`config = openid::verify_token_validity(config)?` turn failures into
`main` returning `Err`; `token` prints the validated token and exits 0;
everything else goes through the verb/resource dispatch. -/
def mainRun (m : Matches) (loadCfg : Except String Config)
    (verify : Config → Except String Config) (net : Net)
    (capture : String → String) : List Event × Outcome :=
  if m.cmdName == "login" then ([], Outcome.exited 0)
  else if m.cmdName == "version" then ([], Outcome.exited 0)
  else
    match loadCfg with
    | Except.error e => ([], Outcome.errored e)
    | Except.ok config0 =>
      match verify config0 with
      | Except.error e => ([Event.checkedToken], Outcome.errored e)
      | Except.ok config =>
        if m.cmdName == "token" then ([Event.checkedToken], Outcome.exited 0)
        else
          match route m config net capture with
          | (evs, out) => (Event.checkedToken :: evs, out)

/-!  ## Trace helpers -/

/-- The HTTP requests occurring in a trace, in order. -/
def requestsOf (evs : List Event) : List Request :=
  evs.filterMap fun e =>
    match e with
    | Event.sent r => some r
    | _ => none

/-- The texts handed to the external editor in a trace, in order. -/
def editorInputs (evs : List Event) : List String :=
  evs.filterMap fun e =>
    match e with
    | Event.editorSpawned s => some s
    | _ => none

/-- The bodies of the PUT requests in a trace, in order. -/
def putBodies (evs : List Event) : List (Option String) :=
  evs.filterMap fun e =>
    match e with
    | Event.sent r => if r.method = Method.PUT then some r.body else none
    | _ => none

/-- How many token validity checks a trace contains. -/
def countTokenChecks (evs : List Event) : Nat :=
  evs.countP fun e => e == Event.checkedToken

/-!  ## Ordered-insertion evaluation lemmas (concrete keys) -/

theorem insertField_nil (k : String) (v : Json) : insertField k v [] = [(k, v)] := rfl

theorem insertField_spec_metadata (m v : Json) :
    insertField "spec" v [("metadata", m)] = [("metadata", m), ("spec", v)] := by
  simp [insertField]
  decide

theorem insertField_application_name (m v : Json) :
    insertField "application" v [("name", m)] = [("application", v), ("name", m)] := by
  simp [insertField]
  decide

theorem insertField_metadata_spec (m v : Json) :
    insertField "metadata" v [("spec", m)] = [("metadata", v), ("spec", m)] := by
  simp [insertField]
  decide

theorem insertField_name_application (m v : Json) :
    insertField "name" v [("application", m)] = [("application", m), ("name", v)] := by
  simp [insertField]
  decide

/-!  ## C5: shape of the create-device body -/

/-- The body shape the spec prescribes for `create device`, written with
the fields in the spec's textual order
(`\x7b"metadata":\x7b"name":<id>,"application":<app>\x7d,"spec":<payload>\x7d`); to be
compared with `createBody`, the body the code builds. -/
def specCreateBodyShape (device_id app_id : String) (data : Json) : Json :=
  Json.obj
    [("metadata", Json.obj [("name", Json.str device_id), ("application", Json.str app_id)]),
     ("spec", data)]

/-- C5: for every device id, parent app id and JSON payload, the body of
the POST request `create device` sends is exactly the serialization of
`\x7b"metadata":\x7b"name":<id>,"application":<app>\x7d,"spec":<payload>\x7d`: the
built value and the spec's shape are the same JSON document (their
key-sorted forms are equal; `serde_json`'s `BTreeMap` stores the fields
sorted, so the bytes on the wire list `application` before `name`). -/
theorem create_device_body_shape (config : Config) (device_id app_id : String) (data : Json) :
    (devicesCreateRequest config device_id data app_id).body
        = some (jsonToString (createBody device_id app_id data))
    ∧ sortJson (createBody device_id app_id data)
        = sortJson (specCreateBodyShape device_id app_id data) := by
  refine ⟨rfl, ?_⟩
  simp [createBody, specCreateBodyShape, serdeObj, sortJson, sortJsonFields,
    insertField_nil, insertField_spec_metadata, insertField_application_name,
    insertField_metadata_spec, insertField_name_application]

/-!  ## C6: request URLs -/

/-- C6 counterexample: `craft_url` concatenates the serialized base URL
and the path with no separator, so for a base URL whose serialized form
does not end in a slash the item URL is not
`\x7bbase\x7d/api/v1/apps/\x7bparentApp\x7d/devices/\x7bid\x7d` — the claim as stated
fails at this input. -/
theorem craft_url_no_separator_counterexample :
    craft_url "https://drogue.example/v1" "factory" "sensor1"
        = "https://drogue.example/v1api/v1/apps/factory/devices/sensor1"
    ∧ craft_url "https://drogue.example/v1" "factory" "sensor1"
        ≠ "https://drogue.example/v1/api/v1/apps/factory/devices/sensor1" := by
  constructor
  · rfl
  · decide

/-- C6 (amended): the code builds the device URLs by direct string
concatenation of the serialized base URL and the path.  Whenever the
serialized base ends with "/" — which `reqwest::Url` guarantees for a
URL with root path — the item URL used by get, edit (read and update)
and delete is `\x7bbase\x7d/api/v1/apps/\x7bparentApp\x7d/devices/\x7bid\x7d` and the
collection URL used by create is `\x7bbase\x7d/api/v1/apps/\x7bparentApp\x7d/devices`,
with `\x7bbase\x7d` the serialized base without its trailing slash. -/
theorem device_request_urls (config : Config) (b app_id device_id : String) (data : Json)
    (h : config.registry_url = b ++ "/") :
    (devicesGetRequest config app_id device_id).url
        = b ++ "/api/v1/apps/" ++ app_id ++ "/devices/" ++ device_id
    ∧ (devicesPutRequest config app_id device_id data).url
        = b ++ "/api/v1/apps/" ++ app_id ++ "/devices/" ++ device_id
    ∧ (devicesDeleteRequest config app_id device_id).url
        = b ++ "/api/v1/apps/" ++ app_id ++ "/devices/" ++ device_id
    ∧ (devicesCreateRequest config device_id data app_id).url
        = b ++ "/api/v1/apps/" ++ app_id ++ "/devices" := by
  refine ⟨?_, ?_, ?_, ?_⟩ <;>
    simp [devicesGetRequest, devicesPutRequest, devicesDeleteRequest, devicesCreateRequest,
      craft_url, h, String.append_assoc]

/-- C6 amended-claim witness: the amended statement evaluated at a
concrete configuration. -/
theorem device_request_urls_witness :
    (devicesGetRequest ⟨"https://drogue.example/", "tok", none⟩ "factory" "sensor1").url
      = "https://drogue.example" ++ "/api/v1/apps/" ++ "factory" ++ "/devices/" ++ "sensor1" :=
  (device_request_urls ⟨"https://drogue.example/", "tok", none⟩ "https://drogue.example"
    "factory" "sensor1" Json.null rfl).1

/-!  ## Concrete fixtures for witness evaluations -/

/-- A concrete configuration with no default app. -/
def demoConfig : Config :=
  { registry_url := "https://sandbox.drogue.cloud/", access_token := "demo-token", default_app := none }

/-- A concrete configuration with a default app configured. -/
def demoConfigDefault : Config :=
  { registry_url := "https://sandbox.drogue.cloud/", access_token := "demo-token", default_app := some "factory" }

/-- A network answering every request with 200 and the body `\x7b"a": 1\x7d`
(note the space: valid JSON, but not in `serde_json`'s compact form). -/
def net200 : Net := fun _ => NetResult.resp 200 (some "\x7b\"a\": 1\x7d")

/-- A network answering every request with 404 and no readable body. -/
def net404 : Net := fun _ => NetResult.resp 404 none

/-- A network on which every request fails at the transport level. -/
def netDown : Net := fun _ => NetResult.transportErr "connection refused"

/-- A network that answers every read with 200 and the compact body
`\x7b"a":1\x7d` but fails every PUT at the transport level. -/
def netPutDown : Net := fun req =>
  if req.method = Method.PUT then NetResult.transportErr "connection reset"
  else NetResult.resp 200 (some "\x7b\"a\":1\x7d")

/-- An editor session in which the user replaces the text with something
that is not JSON. -/
def badCapture : String → String := fun _ => "not json"

/-!  ## C3: the edit flow's fetch gate -/

/-- C3: in the device edit flow a PUT is issued only when the prior GET
of the same device returned status 200; the fetch is the first event and
is sent exactly once (never retried); and on a non-200 status or a
failed fetch the flow terminates with exit code 2 having sent nothing
but that single fetch. -/
theorem edit_update_gated_on_fetch_200 (net : Net) (capture : String → String)
    (config : Config) (app_id device_id : String) :
    ((∃ r ∈ requestsOf (devicesEdit net capture config app_id device_id).1, r.method = Method.PUT) →
        ∃ txt, net (devicesGetRequest config app_id device_id) = NetResult.resp 200 txt)
    ∧ (devicesEdit net capture config app_id device_id).1.head?
        = some (Event.sent (devicesGetRequest config app_id device_id))
    ∧ (requestsOf (devicesEdit net capture config app_id device_id).1).countP
        (fun r => r.method == Method.GET) = 1
    ∧ (∀ st txt, net (devicesGetRequest config app_id device_id) = NetResult.resp st txt → st ≠ 200 →
        devicesEdit net capture config app_id device_id
          = ([Event.sent (devicesGetRequest config app_id device_id)], FnResult.exited 2))
    ∧ (∀ msg, net (devicesGetRequest config app_id device_id) = NetResult.transportErr msg →
        devicesEdit net capture config app_id device_id
          = ([Event.sent (devicesGetRequest config app_id device_id)], FnResult.exited 2)) := by
  rcases hnet : net (devicesGetRequest config app_id device_id) with msg | ⟨st, txt⟩
  · have hrun : devicesEdit net capture config app_id device_id
        = ([Event.sent (devicesGetRequest config app_id device_id)], FnResult.exited 2) := by
      simp [devicesEdit, devicesGet, hnet]
    refine ⟨?_, by simp [hrun], by rw [hrun]; simp [requestsOf, devicesGetRequest], ?_, ?_⟩
    · rintro ⟨r, hr, hm⟩
      rw [hrun] at hr
      simp [requestsOf] at hr
      rw [hr] at hm
      simp [devicesGetRequest] at hm
    · intro st txt h
      cases h
    · intro m h
      exact hrun
  · by_cases h200 : st = 200
    · subst h200
      rcases hed : editorFlow capture (txt.getD "\x7b\x7d") with e | insert
      · have hrun : devicesEdit net capture config app_id device_id
            = ([Event.sent (devicesGetRequest config app_id device_id),
                Event.editorSpawned (txt.getD "\x7b\x7d")], FnResult.err e) := by
          simp [devicesEdit, devicesGet, hnet, hed]
        refine ⟨fun _ => ⟨txt, rfl⟩, by simp [hrun],
          by rw [hrun]; simp [requestsOf, devicesGetRequest], ?_, ?_⟩
        · intro st' txt' h hne
          injection h with h1 h2
          exact absurd h1.symm hne
        · intro m h
          cases h
      · rcases hput : net (devicesPutRequest config app_id device_id insert) with m2 | ⟨pst, ptxt⟩
        · have hrun : devicesEdit net capture config app_id device_id
              = ([Event.sent (devicesGetRequest config app_id device_id),
                  Event.editorSpawned (txt.getD "\x7b\x7d"),
                  Event.sent (devicesPutRequest config app_id device_id insert)],
                 FnResult.panicked) := by
            simp [devicesEdit, devicesGet, hnet, hed, devicesPut, hput]
          refine ⟨fun _ => ⟨txt, rfl⟩, by simp [hrun],
            by rw [hrun]; simp [requestsOf, devicesGetRequest, devicesPutRequest], ?_, ?_⟩
          · intro st' txt' h hne
            injection h with h1 h2
            exact absurd h1.symm hne
          · intro m h
            cases h
        · have hrun : devicesEdit net capture config app_id device_id
              = ([Event.sent (devicesGetRequest config app_id device_id),
                  Event.editorSpawned (txt.getD "\x7b\x7d"),
                  Event.sent (devicesPutRequest config app_id device_id insert)],
                 print_result pst) := by
            simp [devicesEdit, devicesGet, hnet, hed, devicesPut, hput]
          refine ⟨fun _ => ⟨txt, rfl⟩, by simp [hrun],
            by rw [hrun]; simp [requestsOf, devicesGetRequest, devicesPutRequest], ?_, ?_⟩
          · intro st' txt' h hne
            injection h with h1 h2
            exact absurd h1.symm hne
          · intro m h
            cases h
    · have hrun : devicesEdit net capture config app_id device_id
          = ([Event.sent (devicesGetRequest config app_id device_id)], FnResult.exited 2) := by
        simp [devicesEdit, devicesGet, hnet, h200]
      refine ⟨?_, by simp [hrun], by rw [hrun]; simp [requestsOf, devicesGetRequest], ?_, ?_⟩
      · rintro ⟨r, hr, hm⟩
        rw [hrun] at hr
        simp [requestsOf] at hr
        rw [hr] at hm
        simp [devicesGetRequest] at hm
      · intro st' txt' hh hne
        exact hrun
      · intro m hh
        cases hh

/-- C3 witness: on a network answering 404, the edit flow performs the
single fetch and exits with code 2. -/
theorem edit_update_gated_on_fetch_200_witness :
    devicesEdit net404 id demoConfig "factory" "sensor1"
      = ([Event.sent (devicesGetRequest demoConfig "factory" "sensor1")], FnResult.exited 2) :=
  (edit_update_gated_on_fetch_200 net404 id demoConfig "factory" "sensor1").2.2.2.1
    404 none rfl (by decide)

/-!  ## C4: malformed editor JSON is a recoverable error -/

/-- C4 (settled against the spec-modelled `util::editor`): when the text
captured from the editor is not valid JSON, the device edit flow returns
the recoverable `InvalidPayload` error; `main` logs it and terminates
with exit code 3 — a reported error, not a panic or abort. -/
theorem edit_malformed_json_recoverable (net : Net) (capture : String → String)
    (config0 config : Config) (verify : Config → Except String Config)
    (app_id device_id : String) (txt : Option String)
    (h : net (devicesGetRequest config app_id device_id) = NetResult.resp 200 txt)
    (hbad : jsonParse (capture (txt.getD "\x7b\x7d")) = none)
    (hv : verify config0 = Except.ok config) :
    (devicesEdit net capture config app_id device_id).2 = FnResult.err "InvalidPayload"
    ∧ (mainRun ⟨"edit", "device", ⟨some device_id, some app_id, none⟩⟩
        (Except.ok config0) verify net capture).2 = Outcome.exited 3
    ∧ (mainRun ⟨"edit", "device", ⟨some device_id, some app_id, none⟩⟩
        (Except.ok config0) verify net capture).2 ≠ Outcome.panicked := by
  have heditor : editorFlow capture (txt.getD "\x7b\x7d") = Except.error "InvalidPayload" := by
    simp [editorFlow, hbad]
  have hrun : (devicesEdit net capture config app_id device_id).2 = FnResult.err "InvalidPayload" := by
    simp [devicesEdit, devicesGet, h, heditor]
  rcases hde : devicesEdit net capture config app_id device_id with ⟨evs, res⟩
  have hres : res = FnResult.err "InvalidPayload" := by
    rw [hde] at hrun
    exact hrun
  subst hres
  have hmain : (mainRun ⟨"edit", "device", ⟨some device_id, some app_id, none⟩⟩
      (Except.ok config0) verify net capture).2 = Outcome.exited 3 := by
    simp [mainRun, hv, route, Verbs.fromStr, Resources.fromStr, json_parse, hde, liftCrud]
  exact ⟨rfl, hmain, by rw [hmain]; simp⟩

/-- C4 witness: a user writing "not json" into the editor makes the
invocation exit with code 3 rather than crash. -/
theorem edit_malformed_json_recoverable_witness :
    (mainRun ⟨"edit", "device", ⟨some "sensor1", some "factory", none⟩⟩
      (Except.ok demoConfig) Except.ok net200 badCapture).2 = Outcome.exited 3 :=
  (edit_malformed_json_recoverable net200 badCapture demoConfig demoConfig Except.ok
    "factory" "sensor1" (some "\x7b\"a\": 1\x7d") rfl rfl rfl).2.1

/-!  ## C10: unreadable 200 body falls back to an empty object -/

/-- C10: whenever the device edit fetch returns 200, the text presented
to the external editor is exactly the response text, or the literal
"\x7b\x7d" when the text cannot be read — never anything else, and the flow
proceeds rather than failing. -/
theorem edit_editor_input_fallback (net : Net) (capture : String → String)
    (config : Config) (app_id device_id : String) (txt : Option String)
    (h : net (devicesGetRequest config app_id device_id) = NetResult.resp 200 txt) :
    editorInputs (devicesEdit net capture config app_id device_id).1 = [txt.getD "\x7b\x7d"]
    ∧ (∀ s ∈ editorInputs (devicesEdit net capture config app_id device_id).1,
        txt = some s ∨ s = "\x7b\x7d") := by
  have h1 : editorInputs (devicesEdit net capture config app_id device_id).1 = [txt.getD "\x7b\x7d"] := by
    rcases hed : editorFlow capture (txt.getD "\x7b\x7d") with e | insert
    · simp [devicesEdit, devicesGet, h, hed, editorInputs]
    · rcases hput : net (devicesPutRequest config app_id device_id insert) with m2 | ⟨pst, ptxt⟩
      · simp [devicesEdit, devicesGet, h, hed, devicesPut, hput, editorInputs]
      · simp [devicesEdit, devicesGet, h, hed, devicesPut, hput, editorInputs]
  refine ⟨h1, ?_⟩
  intro s hs
  rw [h1] at hs
  simp at hs
  subst hs
  cases txt with
  | none => exact Or.inr rfl
  | some t => exact Or.inl rfl

/-- C10 witness: a 200 response whose body cannot be read as text makes
the editor receive exactly "\x7b\x7d". -/
theorem edit_editor_input_fallback_witness :
    editorInputs (devicesEdit (fun _ => NetResult.resp 200 none) id demoConfig "factory" "sensor1").1
      = ["\x7b\x7d"] :=
  (edit_editor_input_fallback (fun _ => NetResult.resp 200 none) id demoConfig
    "factory" "sensor1" none rfl).1

/-!  ## Dispatch lemmas -/

theorem route_edit_device (config : Config) (net : Net) (capture : String → String)
    (device_id app_id : String) :
    route ⟨"edit", "device", ⟨some device_id, some app_id, none⟩⟩ config net capture
      = liftCrud (devicesEdit net capture config app_id device_id) := by
  simp [route, Verbs.fromStr, Resources.fromStr]

theorem route_create_device (config : Config) (net : Net) (capture : String → String)
    (device_id app_id : String) :
    route ⟨"create", "device", ⟨some device_id, some app_id, none⟩⟩ config net capture
      = liftCrud (devicesCreate net config device_id (Json.obj []) app_id) := by
  simp [route, Verbs.fromStr, Resources.fromStr, json_parse]

theorem route_get_device (config : Config) (net : Net) (capture : String → String)
    (device_id app_id : String) :
    route ⟨"get", "device", ⟨some device_id, some app_id, none⟩⟩ config net capture
      = liftCrud (devicesRead net config app_id device_id) := by
  simp [route, Verbs.fromStr, Resources.fromStr]

theorem route_delete_device (config : Config) (net : Net) (capture : String → String)
    (device_id app_id : String) :
    route ⟨"delete", "device", ⟨some device_id, some app_id, none⟩⟩ config net capture
      = liftCrud (devicesDelete net config app_id device_id) := by
  simp [route, Verbs.fromStr, Resources.fromStr]

theorem mainRun_dispatch (m : Matches) (config0 config : Config)
    (verify : Config → Except String Config) (net : Net) (capture : String → String)
    (hv : verify config0 = Except.ok config)
    (h1 : (m.cmdName == "login") = false) (h2 : (m.cmdName == "version") = false)
    (h3 : (m.cmdName == "token") = false) :
    mainRun m (Except.ok config0) verify net capture
      = (Event.checkedToken :: (route m config net capture).1, (route m config net capture).2) := by
  rcases hr : route m config net capture with ⟨evs, out⟩
  simp [mainRun, h1, h2, h3, hv, hr]

/-!  ## C1: device app-id resolution against default_app -/

/-- C1: `main` resolves the device parent app with
`command.unwrap().value_of(Resources::app).unwrap()`: with no `--app`
flag the invocation panics after the token check and before any network
request, even though `default_app` is configured — while the helper
`arguments::get_app_id` (which `main` never calls for device
operations) implements exactly the claimed resolution: flag wins,
`default_app` is the fallback, and with neither it is the missing-app
error. -/
theorem main_ignores_default_app_bug :
    mainRun ⟨"get", "device", ⟨some "sensor1", none, none⟩⟩
        (Except.ok demoConfigDefault) Except.ok net200 id
      = ([Event.checkedToken], Outcome.panicked)
    ∧ get_app_id (some "plant") demoConfigDefault = Except.ok "plant"
    ∧ get_app_id none demoConfigDefault = Except.ok "factory"
    ∧ get_app_id none demoConfig
        = Except.error "Missing app argument and no default app specified in config file." :=
  ⟨rfl, rfl, rfl, rfl⟩

/-!  ## C7: `send device` is registered but unrouted -/

/-- C7: the clap parser registers `send` as a top-level subcommand, but
`main`'s router has no branch for it: `Verbs::from_str("send")` fails
and the invocation terminates with the variant-not-found error instead
of dispatching to a send handler. -/
theorem send_device_unrouted_bug :
    "send" ∈ registeredTopCommands
    ∧ Verbs.fromStr "send" = Except.error "Matching variant not found"
    ∧ mainRun ⟨"send", "device", ⟨some "sensor1", some "factory", none⟩⟩
        (Except.ok demoConfig) Except.ok net200 id
      = ([Event.checkedToken], Outcome.errored "Matching variant not found") :=
  ⟨by decide, rfl, rfl⟩

/-!  ## C2: exit codes -/

/-- C2 counterexample: three invocations refuting the claimed exit-code
partition.  A transport failure of the primary create call exits with
code 3, not 2; a config-load failure makes `main` return `Err`, so the
process exits with the runtime's code 1, not 2; and a transport failure
of the edit flow's primary PUT call panics (`put(..).unwrap()`), so the
process terminates with the panic code 101 — neither 2 nor 3. -/
theorem exit_code_partition_counterexample :
    (mainRun ⟨"create", "device", ⟨some "sensor1", some "factory", none⟩⟩
        (Except.ok demoConfig) Except.ok netDown id).2 = Outcome.exited 3
    ∧ Outcome.exited 3 ≠ Outcome.exited 2
    ∧ (mainRun ⟨"create", "device", ⟨some "sensor1", some "factory", none⟩⟩
        (Except.error "no config") Except.ok netDown id).2 = Outcome.errored "no config"
    ∧ processExitCode (Outcome.errored "no config") = 1
    ∧ (mainRun ⟨"edit", "device", ⟨some "sensor1", some "factory", none⟩⟩
        (Except.ok demoConfig) Except.ok netPutDown id).2 = Outcome.panicked
    ∧ processExitCode Outcome.panicked = 101 :=
  ⟨rfl, by decide, rfl, rfl, rfl, rfl⟩

/-- C2 (amended): the edit fetch failing (transport or non-200) exits
with code 2.  For create, get and delete, any failure of the primary
CRUD call exits with code 3: a transport failure (the handler's `Err`
is mapped to `exit(3)` by `main`) as well as a server-rejected non-2xx
response; a server-rejected edit PUT likewise exits 3, but a transport
failure of the edit PUT panics (`put(..).unwrap()`), terminating with
the runtime's panic code 101.  A config-load failure and a
token-validation failure make `main` return `Err`, so the process exits
with the runtime's code 1, not 2. -/
theorem exit_code_partition (config0 config : Config) (app_id device_id : String)
    (net : Net) (capture : String → String) (verify : Config → Except String Config)
    (hv : verify config0 = Except.ok config) :
    (∀ e, net (devicesGetRequest config app_id device_id) = NetResult.transportErr e →
      (mainRun ⟨"edit", "device", ⟨some device_id, some app_id, none⟩⟩
        (Except.ok config0) verify net capture).2 = Outcome.exited 2)
    ∧ (∀ st txt, net (devicesGetRequest config app_id device_id) = NetResult.resp st txt →
        st ≠ 200 →
      (mainRun ⟨"edit", "device", ⟨some device_id, some app_id, none⟩⟩
        (Except.ok config0) verify net capture).2 = Outcome.exited 2)
    ∧ (∀ e, net (devicesCreateRequest config device_id (Json.obj []) app_id)
          = NetResult.transportErr e →
      (mainRun ⟨"create", "device", ⟨some device_id, some app_id, none⟩⟩
        (Except.ok config0) verify net capture).2 = Outcome.exited 3)
    ∧ (∀ st txt, net (devicesCreateRequest config device_id (Json.obj []) app_id)
          = NetResult.resp st txt → ¬(200 ≤ st ∧ st < 300) →
      (mainRun ⟨"create", "device", ⟨some device_id, some app_id, none⟩⟩
        (Except.ok config0) verify net capture).2 = Outcome.exited 3)
    ∧ (∀ e, net (devicesGetRequest config app_id device_id) = NetResult.transportErr e →
      (mainRun ⟨"get", "device", ⟨some device_id, some app_id, none⟩⟩
        (Except.ok config0) verify net capture).2 = Outcome.exited 3)
    ∧ (∀ st txt, net (devicesGetRequest config app_id device_id) = NetResult.resp st txt →
        ¬(200 ≤ st ∧ st < 300) →
      (mainRun ⟨"get", "device", ⟨some device_id, some app_id, none⟩⟩
        (Except.ok config0) verify net capture).2 = Outcome.exited 3)
    ∧ (∀ e, net (devicesDeleteRequest config app_id device_id) = NetResult.transportErr e →
      (mainRun ⟨"delete", "device", ⟨some device_id, some app_id, none⟩⟩
        (Except.ok config0) verify net capture).2 = Outcome.exited 3)
    ∧ (∀ st txt, net (devicesDeleteRequest config app_id device_id) = NetResult.resp st txt →
        ¬(200 ≤ st ∧ st < 300) →
      (mainRun ⟨"delete", "device", ⟨some device_id, some app_id, none⟩⟩
        (Except.ok config0) verify net capture).2 = Outcome.exited 3)
    ∧ (∀ txt j pst ptxt, net (devicesGetRequest config app_id device_id) = NetResult.resp 200 txt →
        jsonParse (capture (txt.getD "\x7b\x7d")) = some j →
        net (devicesPutRequest config app_id device_id j) = NetResult.resp pst ptxt →
        ¬(200 ≤ pst ∧ pst < 300) →
      (mainRun ⟨"edit", "device", ⟨some device_id, some app_id, none⟩⟩
        (Except.ok config0) verify net capture).2 = Outcome.exited 3)
    ∧ (∀ txt j e, net (devicesGetRequest config app_id device_id) = NetResult.resp 200 txt →
        jsonParse (capture (txt.getD "\x7b\x7d")) = some j →
        net (devicesPutRequest config app_id device_id j) = NetResult.transportErr e →
      (mainRun ⟨"edit", "device", ⟨some device_id, some app_id, none⟩⟩
        (Except.ok config0) verify net capture).2 = Outcome.panicked
        ∧ processExitCode Outcome.panicked = 101)
    ∧ (∀ e, (mainRun ⟨"create", "device", ⟨some device_id, some app_id, none⟩⟩
        (Except.error e) verify net capture).2 = Outcome.errored e
        ∧ processExitCode (Outcome.errored e) = 1)
    ∧ (∀ e (verify' : Config → Except String Config), verify' config0 = Except.error e →
      (mainRun ⟨"create", "device", ⟨some device_id, some app_id, none⟩⟩
        (Except.ok config0) verify' net capture).2 = Outcome.errored e
        ∧ processExitCode (Outcome.errored e) = 1) := by
  refine ⟨?_, ?_, ?_, ?_, ?_, ?_, ?_, ?_, ?_, ?_, ?_, ?_⟩
  · intro e h
    have hrun : devicesEdit net capture config app_id device_id
        = ([Event.sent (devicesGetRequest config app_id device_id)], FnResult.exited 2) := by
      simp [devicesEdit, devicesGet, h]
    rw [mainRun_dispatch ⟨"edit", "device", ⟨some device_id, some app_id, none⟩⟩
      config0 config verify net capture hv rfl rfl rfl, route_edit_device, hrun]
    rfl
  · intro st txt h hne
    have hrun : devicesEdit net capture config app_id device_id
        = ([Event.sent (devicesGetRequest config app_id device_id)], FnResult.exited 2) := by
      simp [devicesEdit, devicesGet, h, hne]
    rw [mainRun_dispatch ⟨"edit", "device", ⟨some device_id, some app_id, none⟩⟩
      config0 config verify net capture hv rfl rfl rfl, route_edit_device, hrun]
    rfl
  · intro e h
    have hrun : devicesCreate net config device_id (Json.obj []) app_id
        = ([Event.sent (devicesCreateRequest config device_id (Json.obj []) app_id)],
           FnResult.err "Can\x27t create device.") := by
      simp [devicesCreate, h]
    rw [mainRun_dispatch ⟨"create", "device", ⟨some device_id, some app_id, none⟩⟩
      config0 config verify net capture hv rfl rfl rfl, route_create_device, hrun]
    rfl
  · intro st txt h hne
    have hrun : devicesCreate net config device_id (Json.obj []) app_id
        = ([Event.sent (devicesCreateRequest config device_id (Json.obj []) app_id)],
           FnResult.exited 3) := by
      simp [devicesCreate, h, print_result, hne]
    rw [mainRun_dispatch ⟨"create", "device", ⟨some device_id, some app_id, none⟩⟩
      config0 config verify net capture hv rfl rfl rfl, route_create_device, hrun]
    rfl
  · intro e h
    have hrun : devicesRead net config app_id device_id
        = ([Event.sent (devicesGetRequest config app_id device_id)],
           FnResult.err "Can\x27t get device.") := by
      simp [devicesRead, devicesGet, h]
    rw [mainRun_dispatch ⟨"get", "device", ⟨some device_id, some app_id, none⟩⟩
      config0 config verify net capture hv rfl rfl rfl, route_get_device, hrun]
    rfl
  · intro st txt h hne
    have hrun : devicesRead net config app_id device_id
        = ([Event.sent (devicesGetRequest config app_id device_id)], FnResult.exited 3) := by
      simp [devicesRead, devicesGet, h, print_result, hne]
    rw [mainRun_dispatch ⟨"get", "device", ⟨some device_id, some app_id, none⟩⟩
      config0 config verify net capture hv rfl rfl rfl, route_get_device, hrun]
    rfl
  · intro e h
    have hrun : devicesDelete net config app_id device_id
        = ([Event.sent (devicesDeleteRequest config app_id device_id)],
           FnResult.err "Can\x27t delete device.") := by
      simp [devicesDelete, h]
    rw [mainRun_dispatch ⟨"delete", "device", ⟨some device_id, some app_id, none⟩⟩
      config0 config verify net capture hv rfl rfl rfl, route_delete_device, hrun]
    rfl
  · intro st txt h hne
    have hrun : devicesDelete net config app_id device_id
        = ([Event.sent (devicesDeleteRequest config app_id device_id)], FnResult.exited 3) := by
      simp [devicesDelete, h, print_result, hne]
    rw [mainRun_dispatch ⟨"delete", "device", ⟨some device_id, some app_id, none⟩⟩
      config0 config verify net capture hv rfl rfl rfl, route_delete_device, hrun]
    rfl
  · intro txt j pst ptxt h hparse hput hne
    have hed : editorFlow capture (txt.getD "\x7b\x7d") = Except.ok j := by
      simp [editorFlow, hparse]
    have hrun : devicesEdit net capture config app_id device_id
        = ([Event.sent (devicesGetRequest config app_id device_id),
            Event.editorSpawned (txt.getD "\x7b\x7d"),
            Event.sent (devicesPutRequest config app_id device_id j)],
           FnResult.exited 3) := by
      simp [devicesEdit, devicesGet, h, hed, devicesPut, hput, print_result, hne]
    rw [mainRun_dispatch ⟨"edit", "device", ⟨some device_id, some app_id, none⟩⟩
      config0 config verify net capture hv rfl rfl rfl, route_edit_device, hrun]
    rfl
  · intro txt j e h hparse hput
    have hed : editorFlow capture (txt.getD "\x7b\x7d") = Except.ok j := by
      simp [editorFlow, hparse]
    have hrun : devicesEdit net capture config app_id device_id
        = ([Event.sent (devicesGetRequest config app_id device_id),
            Event.editorSpawned (txt.getD "\x7b\x7d"),
            Event.sent (devicesPutRequest config app_id device_id j)],
           FnResult.panicked) := by
      simp [devicesEdit, devicesGet, h, hed, devicesPut, hput]
    rw [mainRun_dispatch ⟨"edit", "device", ⟨some device_id, some app_id, none⟩⟩
      config0 config verify net capture hv rfl rfl rfl, route_edit_device, hrun]
    exact ⟨rfl, rfl⟩
  · intro e
    exact ⟨by simp [mainRun], rfl⟩
  · intro e verify' hv'
    exact ⟨by simp [mainRun, hv'], rfl⟩

/-- C2 amended-claim witness: every exit mode of the amended partition
evaluated on concrete invocations — edit fetch failure (2), create,
get, delete and edit-PUT server/transport failures (3), the edit PUT
transport panic (101), and a config-load failure (`Err`, code 1). -/
theorem exit_code_partition_witness :
    (mainRun ⟨"edit", "device", ⟨some "sensor1", some "factory", none⟩⟩
        (Except.ok demoConfig) Except.ok netDown id).2 = Outcome.exited 2
    ∧ (mainRun ⟨"create", "device", ⟨some "sensor1", some "factory", none⟩⟩
        (Except.ok demoConfig) Except.ok net404 id).2 = Outcome.exited 3
    ∧ (mainRun ⟨"get", "device", ⟨some "sensor1", some "factory", none⟩⟩
        (Except.ok demoConfig) Except.ok netDown id).2 = Outcome.exited 3
    ∧ (mainRun ⟨"delete", "device", ⟨some "sensor1", some "factory", none⟩⟩
        (Except.ok demoConfig) Except.ok net404 id).2 = Outcome.exited 3
    ∧ (mainRun ⟨"edit", "device", ⟨some "sensor1", some "factory", none⟩⟩
        (Except.ok demoConfig) Except.ok netPutDown id).2 = Outcome.panicked
    ∧ (mainRun ⟨"create", "device", ⟨some "sensor1", some "factory", none⟩⟩
        (Except.error "no config") Except.ok net404 id).2 = Outcome.errored "no config" :=
  ⟨(exit_code_partition demoConfig demoConfig "factory" "sensor1" netDown id Except.ok rfl).1
      "connection refused" rfl,
   (exit_code_partition demoConfig demoConfig "factory" "sensor1" net404 id Except.ok rfl).2.2.2.1
      404 none rfl (by decide),
   (exit_code_partition demoConfig demoConfig "factory" "sensor1" netDown id Except.ok
      rfl).2.2.2.2.1 "connection refused" rfl,
   (exit_code_partition demoConfig demoConfig "factory" "sensor1" net404 id Except.ok
      rfl).2.2.2.2.2.2.2.1 404 none rfl (by decide),
   ((exit_code_partition demoConfig demoConfig "factory" "sensor1" netPutDown id Except.ok
      rfl).2.2.2.2.2.2.2.2.2.1 (some "\x7b\"a\":1\x7d") (Json.obj [("a", Json.num 1)])
      "connection reset" rfl rfl rfl).1,
   ((exit_code_partition demoConfig demoConfig "factory" "sensor1" net404 id Except.ok
      rfl).2.2.2.2.2.2.2.2.2.2.1 "no config").1⟩

/-!  ## C8: the no-op edit round trip -/

/-- C8 counterexample: reading a device whose body is `\x7b"a": 1\x7d` (with
a space) and submitting it back unchanged produces the update body
`\x7b"a":1\x7d` — the parse/re-serialize step normalizes the text, so the
update body is not byte-for-byte equal to the read body. -/
theorem noop_edit_not_byte_identical :
    editorInputs (devicesEdit net200 id demoConfig "factory" "sensor1").1 = ["\x7b\"a\": 1\x7d"]
    ∧ putBodies (devicesEdit net200 id demoConfig "factory" "sensor1").1 = [some "\x7b\"a\":1\x7d"]
    ∧ (some "\x7b\"a\":1\x7d" : Option String) ≠ some "\x7b\"a\": 1\x7d" :=
  ⟨rfl, rfl, by decide⟩

/-- C8 (amended): submitting the fetched body back unchanged produces an
update body equal to the compact `serde_json` serialization of the
body's parse — the same JSON document; it is byte-for-byte equal to the
read body exactly when the read body is already in that compact
canonical form. -/
theorem noop_edit_body_normalized (net : Net) (capture : String → String)
    (config : Config) (app_id device_id : String) (txt : String) (j : Json)
    (h : net (devicesGetRequest config app_id device_id) = NetResult.resp 200 (some txt))
    (hcap : capture txt = txt)
    (hparse : jsonParse txt = some j) :
    putBodies (devicesEdit net capture config app_id device_id).1 = [some (jsonToString j)]
    ∧ (jsonToString j = txt →
        putBodies (devicesEdit net capture config app_id device_id).1 = [some txt]) := by
  have hed : editorFlow capture txt = Except.ok j := by
    simp [editorFlow, hcap, hparse]
  have h1 : putBodies (devicesEdit net capture config app_id device_id).1
      = [some (jsonToString j)] := by
    rcases hput : net (devicesPutRequest config app_id device_id j) with m2 | ⟨pst, ptxt⟩
    · have hrun : (devicesEdit net capture config app_id device_id).1
          = [Event.sent (devicesGetRequest config app_id device_id),
             Event.editorSpawned txt,
             Event.sent (devicesPutRequest config app_id device_id j)] := by
        simp [devicesEdit, devicesGet, h, hed, devicesPut, hput]
      rw [hrun]
      simp [putBodies, devicesGetRequest, devicesPutRequest]
    · have hrun : (devicesEdit net capture config app_id device_id).1
          = [Event.sent (devicesGetRequest config app_id device_id),
             Event.editorSpawned txt,
             Event.sent (devicesPutRequest config app_id device_id j)] := by
        simp [devicesEdit, devicesGet, h, hed, devicesPut, hput]
      rw [hrun]
      simp [putBodies, devicesGetRequest, devicesPutRequest]
  exact ⟨h1, fun he => by rw [h1, he]⟩

/-- C8 amended-claim witness: a body already in compact form survives
the no-op round trip byte-for-byte. -/
theorem noop_edit_body_normalized_witness :
    putBodies (devicesEdit (fun _ => NetResult.resp 200 (some "\x7b\"a\":1\x7d")) id
        demoConfig "factory" "sensor1").1 = [some "\x7b\"a\":1\x7d"] :=
  (noop_edit_body_normalized (fun _ => NetResult.resp 200 (some "\x7b\"a\":1\x7d")) id
    demoConfig "factory" "sensor1" "\x7b\"a\":1\x7d" (Json.obj [("a", Json.num 1)])
    rfl rfl rfl).2 rfl

/-!  ## C9: token lifecycle -/

/-- Trace hygiene of one handler: it never records a token check, and
every request it sends carries the validated access token as bearer. -/
def handlerTraceOk (config : Config) (evs : List Event) : Prop :=
  Event.checkedToken ∉ evs ∧ ∀ r ∈ requestsOf evs, r.bearer = config.access_token

theorem bearer_devicesGetRequest (c : Config) (a d : String) :
    (devicesGetRequest c a d).bearer = c.access_token := rfl

theorem bearer_devicesDeleteRequest (c : Config) (a d : String) :
    (devicesDeleteRequest c a d).bearer = c.access_token := rfl

theorem bearer_devicesCreateRequest (c : Config) (d : String) (j : Json) (a : String) :
    (devicesCreateRequest c d j a).bearer = c.access_token := rfl

theorem bearer_devicesPutRequest (c : Config) (a d : String) (j : Json) :
    (devicesPutRequest c a d j).bearer = c.access_token := rfl

theorem bearer_appsCreateRequest (c : Config) (a : String) (j : Json) :
    (appsCreateRequest c a j).bearer = c.access_token := rfl

theorem bearer_appsGetRequest (c : Config) (a : String) :
    (appsGetRequest c a).bearer = c.access_token := rfl

theorem bearer_appsDeleteRequest (c : Config) (a : String) :
    (appsDeleteRequest c a).bearer = c.access_token := rfl

theorem bearer_appsPutRequest (c : Config) (a : String) (j : Json) :
    (appsPutRequest c a j).bearer = c.access_token := rfl

theorem handlerTraceOk_nil (config : Config) : handlerTraceOk config [] := by
  simp [handlerTraceOk, requestsOf]

theorem liftCrud_fst (p : List Event × FnResult) : (liftCrud p).1 = p.1 := by
  rcases p with ⟨evs, res⟩
  cases res <;> rfl

theorem traceOk_devicesRead (net : Net) (config : Config) (app_id device_id : String) :
    handlerTraceOk config (devicesRead net config app_id device_id).1 := by
  rcases h : net (devicesGetRequest config app_id device_id) with msg | ⟨st, txt⟩ <;>
    simp [handlerTraceOk, devicesRead, devicesGet, h, requestsOf, bearer_devicesGetRequest]

theorem traceOk_devicesDelete (net : Net) (config : Config) (app_id device_id : String) :
    handlerTraceOk config (devicesDelete net config app_id device_id).1 := by
  rcases h : net (devicesDeleteRequest config app_id device_id) with msg | ⟨st, txt⟩ <;>
    simp [handlerTraceOk, devicesDelete, h, requestsOf, bearer_devicesDeleteRequest]

theorem traceOk_devicesCreate (net : Net) (config : Config) (device_id : String)
    (data : Json) (app_id : String) :
    handlerTraceOk config (devicesCreate net config device_id data app_id).1 := by
  rcases h : net (devicesCreateRequest config device_id data app_id) with msg | ⟨st, txt⟩ <;>
    simp [handlerTraceOk, devicesCreate, h, requestsOf, bearer_devicesCreateRequest]

theorem traceOk_devicesEdit (net : Net) (capture : String → String) (config : Config)
    (app_id device_id : String) :
    handlerTraceOk config (devicesEdit net capture config app_id device_id).1 := by
  rcases h : net (devicesGetRequest config app_id device_id) with msg | ⟨st, txt⟩
  · simp [handlerTraceOk, devicesEdit, devicesGet, h, requestsOf, bearer_devicesGetRequest]
  · by_cases h200 : st = 200
    · subst h200
      rcases hed : editorFlow capture (txt.getD "\x7b\x7d") with e | insert
      · simp [handlerTraceOk, devicesEdit, devicesGet, h, hed, requestsOf, bearer_devicesGetRequest]
      · rcases hput : net (devicesPutRequest config app_id device_id insert) with m2 | ⟨pst, ptxt⟩ <;>
          simp [handlerTraceOk, devicesEdit, devicesGet, h, hed, devicesPut, hput,
            requestsOf, bearer_devicesGetRequest, bearer_devicesPutRequest]
    · simp [handlerTraceOk, devicesEdit, devicesGet, h, h200, requestsOf, bearer_devicesGetRequest]

theorem traceOk_appsCreate (net : Net) (config : Config) (app_id : String) (data : Json) :
    handlerTraceOk config (appsCreate net config app_id data).1 := by
  rcases h : net (appsCreateRequest config app_id data) with msg | ⟨st, txt⟩ <;>
    simp [handlerTraceOk, appsCreate, h, requestsOf, bearer_appsCreateRequest]

theorem traceOk_appsRead (net : Net) (config : Config) (app_id : String) :
    handlerTraceOk config (appsRead net config app_id).1 := by
  rcases h : net (appsGetRequest config app_id) with msg | ⟨st, txt⟩ <;>
    simp [handlerTraceOk, appsRead, h, requestsOf, bearer_appsGetRequest]

theorem traceOk_appsDelete (net : Net) (config : Config) (app_id : String) :
    handlerTraceOk config (appsDelete net config app_id).1 := by
  rcases h : net (appsDeleteRequest config app_id) with msg | ⟨st, txt⟩ <;>
    simp [handlerTraceOk, appsDelete, h, requestsOf, bearer_appsDeleteRequest]

theorem traceOk_appsEdit (net : Net) (capture : String → String) (config : Config)
    (app_id : String) :
    handlerTraceOk config (appsEdit net capture config app_id).1 := by
  rcases h : net (appsGetRequest config app_id) with msg | ⟨st, txt⟩
  · simp [handlerTraceOk, appsEdit, h, requestsOf, bearer_appsGetRequest]
  · by_cases h200 : st = 200
    · subst h200
      rcases hed : editorFlow capture (txt.getD "\x7b\x7d") with e | insert
      · simp [handlerTraceOk, appsEdit, h, hed, requestsOf, bearer_appsGetRequest]
      · rcases hput : net (appsPutRequest config app_id insert) with m2 | ⟨pst, ptxt⟩ <;>
          simp [handlerTraceOk, appsEdit, h, hed, hput, requestsOf, bearer_appsGetRequest, bearer_appsPutRequest]
    · simp [handlerTraceOk, appsEdit, h, h200, requestsOf, bearer_appsGetRequest]

theorem traceOk_route (m : Matches) (config : Config) (net : Net)
    (capture : String → String) :
    handlerTraceOk config (route m config net capture).1 := by
  rcases hb : Verbs.fromStr m.cmdName with e | v
  · simp [route, hb, handlerTraceOk_nil]
  · cases v
    · rcases hd : json_parse m.args.data with e | data
      · simp [route, hb, hd, handlerTraceOk_nil]
      · rcases hid : m.args.id with _ | id
        · simp [route, hb, hd, hid, handlerTraceOk_nil]
        · rcases hr : Resources.fromStr m.resName with e | r
          · simp [route, hb, hd, hid, hr, handlerTraceOk_nil]
          · cases r
            · rcases ha : m.args.app with _ | app_id
              · simp [route, hb, hd, hid, hr, ha, handlerTraceOk_nil]
              · simp only [route, hb, hd, hid, hr, ha, liftCrud_fst]
                exact traceOk_devicesCreate net config id data app_id
            · simp only [route, hb, hd, hid, hr, liftCrud_fst]
              exact traceOk_appsCreate net config id data
    · rcases hid : m.args.id with _ | id
      · simp [route, hb, hid, handlerTraceOk_nil]
      · rcases hr : Resources.fromStr m.resName with e | r
        · simp [route, hb, hid, hr, handlerTraceOk_nil]
        · cases r
          · rcases ha : m.args.app with _ | app_id
            · simp [route, hb, hid, hr, ha, handlerTraceOk_nil]
            · simp only [route, hb, hid, hr, ha, liftCrud_fst]
              exact traceOk_devicesDelete net config app_id id
          · simp only [route, hb, hid, hr, liftCrud_fst]
            exact traceOk_appsDelete net config id
    · rcases hid : m.args.id with _ | id
      · simp [route, hb, hid, handlerTraceOk_nil]
      · rcases hr : Resources.fromStr m.resName with e | r
        · simp [route, hb, hid, hr, handlerTraceOk_nil]
        · cases r
          · rcases ha : m.args.app with _ | app_id
            · simp [route, hb, hid, hr, ha, handlerTraceOk_nil]
            · simp only [route, hb, hid, hr, ha, liftCrud_fst]
              exact traceOk_devicesEdit net capture config app_id id
          · simp only [route, hb, hid, hr, liftCrud_fst]
            exact traceOk_appsEdit net capture config id
    · rcases hid : m.args.id with _ | id
      · simp [route, hb, hid, handlerTraceOk_nil]
      · rcases hr : Resources.fromStr m.resName with e | r
        · simp [route, hb, hid, hr, handlerTraceOk_nil]
        · cases r
          · rcases ha : m.args.app with _ | app_id
            · simp [route, hb, hid, hr, ha, handlerTraceOk_nil]
            · simp only [route, hb, hid, hr, ha, liftCrud_fst]
              exact traceOk_devicesRead net config app_id id
          · simp only [route, hb, hid, hr, liftCrud_fst]
            exact traceOk_appsRead net config id


/-- C9: in every invocation the token validity check happens at most
once; whenever any HTTP request is sent, the trace begins with exactly
one token check — so the check precedes every authenticated request —
and every request sent carries the access token of the configuration
`verify_token_validity` returned, as its bearer credential. -/
theorem token_checked_once_before_requests (m : Matches) (loadCfg : Except String Config)
    (verify : Config → Except String Config) (net : Net) (capture : String → String) :
    countTokenChecks (mainRun m loadCfg verify net capture).1 ≤ 1
    ∧ (requestsOf (mainRun m loadCfg verify net capture).1 ≠ [] →
        (mainRun m loadCfg verify net capture).1.head? = some Event.checkedToken
        ∧ countTokenChecks (mainRun m loadCfg verify net capture).1 = 1)
    ∧ (∀ config0 config, loadCfg = Except.ok config0 → verify config0 = Except.ok config →
        ∀ r ∈ requestsOf (mainRun m loadCfg verify net capture).1,
          r.bearer = config.access_token) := by
  cases hlogin : m.cmdName == "login" with
  | true =>
    have hm : mainRun m loadCfg verify net capture = ([], Outcome.exited 0) := by
      simp [mainRun, hlogin]
    rw [hm]
    exact ⟨by simp [countTokenChecks], by intro hne; simp [requestsOf] at hne,
      by intro c0 c h1 h2 r hr; simp [requestsOf] at hr⟩
  | false =>
    cases hver : m.cmdName == "version" with
    | true =>
      have hm : mainRun m loadCfg verify net capture = ([], Outcome.exited 0) := by
        simp [mainRun, hlogin, hver]
      rw [hm]
      exact ⟨by simp [countTokenChecks], by intro hne; simp [requestsOf] at hne,
        by intro c0 c h1 h2 r hr; simp [requestsOf] at hr⟩
    | false =>
      cases loadCfg with
      | error e =>
        have hm : mainRun m (Except.error e) verify net capture = ([], Outcome.errored e) := by
          simp [mainRun, hlogin, hver]
        rw [hm]
        exact ⟨by simp [countTokenChecks], by intro hne; simp [requestsOf] at hne,
          by intro c0 c h1 h2 r hr; cases h1⟩
      | ok config0 =>
        rcases hv : verify config0 with e | config
        · have hm : mainRun m (Except.ok config0) verify net capture
              = ([Event.checkedToken], Outcome.errored e) := by
            simp [mainRun, hlogin, hver, hv]
          rw [hm]
          refine ⟨by simp [countTokenChecks], by intro hne; simp [requestsOf] at hne, ?_⟩
          intro c0 c h1 h2 r hr
          injection h1 with h1
          rw [← h1] at h2
          rw [h2] at hv
          cases hv
        · cases htok : m.cmdName == "token" with
          | true =>
            have hm : mainRun m (Except.ok config0) verify net capture
                = ([Event.checkedToken], Outcome.exited 0) := by
              simp [mainRun, hlogin, hver, hv, htok]
            rw [hm]
            exact ⟨by simp [countTokenChecks], by intro hne; simp [requestsOf] at hne,
              by intro c0 c h1 h2 r hr; simp [requestsOf] at hr⟩
          | false =>
            rcases hr : route m config net capture with ⟨evs, out⟩
            have hm : mainRun m (Except.ok config0) verify net capture
                = (Event.checkedToken :: evs, out) := by
              simp [mainRun, hlogin, hver, hv, htok, hr]
            have htrace : handlerTraceOk config evs := by
              have := traceOk_route m config net capture
              rw [hr] at this
              exact this
            have hcount : countTokenChecks evs = 0 := by
              rw [countTokenChecks, List.countP_eq_zero]
              intro a ha
              simp only [beq_iff_eq]
              intro hEq
              rw [hEq] at ha
              exact htrace.1 ha
            have hcount1 : countTokenChecks (Event.checkedToken :: evs) = 1 := by
              have h0 : List.countP (fun e => e == Event.checkedToken) evs = 0 := hcount
              simp [countTokenChecks, List.countP_cons, h0]
            rw [hm]
            refine ⟨by rw [hcount1], fun _ => ⟨rfl, hcount1⟩, ?_⟩
            intro c0 c h1 h2 r hrq
            injection h1 with h1
            rw [← h1] at h2
            rw [h2] at hv
            injection hv with hv
            have hreq : r ∈ requestsOf evs := by
              simpa [requestsOf] using hrq
            rw [hv]
            exact htrace.2 r hreq

/-- C9 witness: a concrete `get device` invocation checks the token
first and sends its GET with the validated bearer token. -/
theorem token_checked_once_before_requests_witness :
    (mainRun ⟨"get", "device", ⟨some "sensor1", some "factory", none⟩⟩
        (Except.ok demoConfig) Except.ok net200 id).1.head? = some Event.checkedToken
    ∧ (devicesGetRequest demoConfig "factory" "sensor1").bearer = demoConfig.access_token :=
  ⟨((token_checked_once_before_requests ⟨"get", "device", ⟨some "sensor1", some "factory", none⟩⟩
      (Except.ok demoConfig) Except.ok net200 id).2.1 (by decide)).1,
   (token_checked_once_before_requests ⟨"get", "device", ⟨some "sensor1", some "factory", none⟩⟩
      (Except.ok demoConfig) Except.ok net200 id).2.2 demoConfig demoConfig rfl rfl
      (devicesGetRequest demoConfig "factory" "sensor1") (by decide)⟩

end Drg
